import Mathlib

/-!
Verification of the V4L2 capture engine (`src/v4l2.cpp`, `v4l2/definitions`
and `v4l2/v4l2.hpp`) against its natural-language specification.

The C++ code is shallowly embedded: the camera object becomes an explicit
state record, each method becomes a pure function from the state and the
kernel's (environment's) responses to the new state, an `Except`-style
result, and the list of hardware operations the method issued.  Machine
integers are `Nat` with explicit `% 2^32` where the C code can wrap.
-/

namespace V4l2

/-- 2^32, the modulus of `uint32_t` arithmetic. -/
def u32Mod : Nat := 4294967296

/-- `make_fourcc(a,b,c,d)` from `definitions.hpp`:
`a | (b << 8) | (c << 16) | (d << 24)` on `uint32_t`. -/
def make_fourcc (a b c d : Nat) : Nat :=
  (a ||| (b <<< 8) ||| (c <<< 16) ||| (d <<< 24)) % u32Mod

/-- `V4L2_PIX_FMT_MJPEG` = fourcc 'M','J','P','G' (0x47504A4D). -/
def V4L2_PIX_FMT_MJPEG : Nat := make_fourcc 77 74 80 71

/-- `V4L2_PIX_FMT_YUYV` = fourcc 'Y','U','Y','V' (0x56595559). -/
def V4L2_PIX_FMT_YUYV : Nat := make_fourcc 89 85 89 86

/-- `dimensions_compress(width, height)` from `definitions.hpp`:
`(width << 16) | height` on `uint32_t`. -/
def dimensions_compress (width height : Nat) : Nat :=
  (((width <<< 16) % u32Mod) ||| (height % u32Mod)) % u32Mod

/-- `dimensions_decompress(dimensions)` from `definitions.hpp`:
`{dimensions >> 16, dimensions & 0xFFFF}`. -/
def dimensions_decompress (dimensions : Nat) : Nat × Nat :=
  (dimensions >>> 16, dimensions &&& 0xFFFF)

/-- `enum class PixelDimension` from `definitions.hpp`. -/
inductive PixelDimension
  | DIM_HD
  | DIM_FHD
  | DIM_2K
  | DIM_4K
  deriving DecidableEq, Repr

/-- The width of the pair each `PixelDimension` enumerator packs. -/
def PixelDimension.width : PixelDimension → Nat
  | .DIM_HD => 1280
  | .DIM_FHD => 1920
  | .DIM_2K => 2048
  | .DIM_4K => 3840

/-- The height of the pair each `PixelDimension` enumerator packs. -/
def PixelDimension.height : PixelDimension → Nat
  | .DIM_HD => 720
  | .DIM_FHD => 1080
  | .DIM_2K => 1080
  | .DIM_4K => 2160

/-- The numeric value of each `PixelDimension` enumerator, defined in the
source as `dimensions_compress` of its width/height pair. -/
def PixelDimension.val (d : PixelDimension) : Nat :=
  dimensions_compress d.width d.height

/-- `struct V4l2Config` from `definitions.hpp`.  The pixel dimension and
pixel format are stored as their `uint32_t` values (the C `enum class`
carries any value of its underlying type once cast). -/
structure V4l2Config where
  device_path : String := "/dev/video0"
  dimension : Nat := (PixelDimension.DIM_4K).val
  format : Nat := V4L2_PIX_FMT_MJPEG
  fps_num : Nat := 30
  buffer_count : Nat := 4
  deriving DecidableEq, Repr

/-- `struct V4lCaps` from `definitions.hpp`. -/
structure V4lCaps where
  driver : String := ""
  card : String := ""
  deriving DecidableEq, Repr

/-- `struct MappedBuffer` from `definitions.hpp`: a mapped region's base
address and byte length.  Addresses are modelled as `Int`: `0` stands for
`nullptr` and `-1` for the `MAP_FAILED` sentinel. -/
structure MappedBuffer where
  data : Int := 0
  size : Nat := 0
  deriving DecidableEq, Repr

/-- `MappedBuffer::is_valid`: `data && data != MAP_FAILED`. -/
def MappedBuffer.is_valid (b : MappedBuffer) : Bool :=
  b.data != 0 && b.data != -1

/-- `struct FrameView` from `definitions.hpp`.  The `std::span` member is
modelled by its base address and byte length. -/
structure FrameView where
  timestamp_monotonic_us : Nat
  v4l2_timestamp_us : Nat
  image_data : Int
  image_len : Nat
  width : Nat
  height : Nat
  format : Nat
  deriving DecidableEq, Repr

/-- The state of a `V4L2Camera` object (`v4l2.hpp`): configuration, file
descriptor, configured flag, the optional outstanding-buffer index
`last_buf_index_`, the mapped-buffer vector and the capability snapshot. -/
structure V4L2Camera where
  config : V4l2Config
  fd : Int := -1
  configured : Bool := false
  last_buf_index : Option Nat := none
  buffers : List MappedBuffer
  caps : V4lCaps := {}
  deriving DecidableEq, Repr

/-- `V4L2Camera::V4L2Camera(const V4l2Config&)`: stores the configuration
and sizes `buffers_` to `config_.buffer_count_` default entries. -/
def V4L2Camera.mk_from_config (config : V4l2Config) : V4L2Camera :=
  { config := config
    fd := -1
    configured := false
    last_buf_index := none
    buffers := List.replicate config.buffer_count {}
    caps := {} }

/-- One hardware interaction issued by the engine (an `ioctl`, `mmap`,
`munmap` or `close` call), recorded so that "no hardware mutation"
properties are statable. -/
inductive HwOp
  | sfmt
  | gfmt
  | sparm
  | reqbufs (count : Nat)
  | querybuf (index : Nat)
  | mmap_call (index : Nat)
  | qbuf (index : Nat)
  | dqbuf
  | munmap_call (addr : Int) (len : Nat)
  | close_fd
  deriving DecidableEq, Repr

/-- `V4L2Camera::has_valid_frame`: `last_buf_index_.has_value()`. -/
def V4L2Camera.has_valid_frame (cam : V4L2Camera) : Bool :=
  cam.last_buf_index.isSome

/-- `V4L2Camera::cleanup` (lines 341-358): unmap every valid buffer
(resetting its entry), then close the descriptor if open and set it
to `-1`.  Returns the new state and the hardware operations issued. -/
def V4L2Camera.cleanup (cam : V4L2Camera) : V4L2Camera × List HwOp :=
  ({ cam with
      buffers := cam.buffers.map (fun b =>
        if b.is_valid then { data := 0, size := 0 } else b)
      fd := -1 },
   (cam.buffers.filter (fun b => b.is_valid)).map
      (fun b => HwOp.munmap_call b.data b.size)
     ++ (if cam.fd ≥ 0 then [HwOp.close_fd] else []))

/-- The effect of the move constructor (lines 41-52) and move assignment
(lines 54-70) on the moved-from source: only `other.fd_ = -1` is executed;
`other.buffers_` and `other.last_buf_index_` are read but never cleared
(moving a `std::optional<uint32_t>` leaves it engaged). -/
def V4L2Camera.move_source_after (cam : V4L2Camera) : V4L2Camera :=
  { cam with fd := -1 }

/-- What the kernel reports through `VIDIOC_DQBUF` when the ioctl
succeeds: the dequeued buffer's index, `bytesused`, and the driver
timestamp fields. -/
structure DqbufReply where
  index : Nat
  bytesused : Nat
  tv_sec : Nat
  tv_usec : Nat
  deriving DecidableEq, Repr

/-- `V4L2Camera::capture_frame` (lines 273-309).  `dq` is the kernel's
response to `VIDIOC_DQBUF` (`none` = ioctl failure) and `now` the host
monotonic clock sample.  On success the buffer index is bounds-checked
against `buffers_.size()`, recorded in `last_buf_index_`, and a view into
the mapped entry of length `bytesused` is returned. -/
def V4L2Camera.capture_frame (cam : V4L2Camera) (dq : Option DqbufReply)
    (now : Nat) : V4L2Camera × Except String FrameView × List HwOp :=
  match dq with
  | none => (cam, .error "VIDIOC_DQBUF failed", [HwOp.dqbuf])
  | some buf =>
    if buf.index ≥ cam.buffers.length then
      (cam, .error "DQBUF returned invalid buffer index", [HwOp.dqbuf])
    else
      let mapped := cam.buffers.getD buf.index {}
      let wh := dimensions_decompress cam.config.dimension
      let v4l2_ts_us := buf.tv_sec * 1000000 + buf.tv_usec
      ({ cam with last_buf_index := some buf.index },
       .ok { timestamp_monotonic_us := now
             v4l2_timestamp_us := v4l2_ts_us
             image_data := mapped.data
             image_len := buf.bytesused
             width := wh.1
             height := wh.2
             format := cam.config.format },
       [HwOp.dqbuf])

/-- `V4L2Camera::release_frame` (lines 311-330).  With no outstanding
index the call only logs a warning and returns (no ioctl).  Otherwise it
requeues `*last_buf_index_`; `qbufOk` is whether that `VIDIOC_QBUF`
succeeds — on failure the function throws before `last_buf_index_.reset()`
runs, so the state is unchanged. -/
def V4L2Camera.release_frame (cam : V4L2Camera) (qbufOk : Bool) :
    V4L2Camera × Except String Unit × List HwOp :=
  match cam.last_buf_index with
  | none => (cam, .ok (), [])
  | some idx =>
    if qbufOk then
      ({ cam with last_buf_index := none }, .ok (), [HwOp.qbuf idx])
    else
      (cam, .error "VIDIOC_QBUF failed", [HwOp.qbuf idx])

/-- The kernel's reply to `VIDIOC_QUERYBUF`: the buffer's byte length and
mapping offset. -/
structure QueryBufReply where
  length : Nat
  offset : Nat
  deriving DecidableEq, Repr

/-- The kernel's responses to the hardware calls `configure` makes, in
program order.  `none`/`false` means the corresponding ioctl (or `mmap`)
fails.  `sfmt` and `gfmt` carry the pixel format the driver reports;
`reqbufs` carries the granted buffer count the kernel writes back into
`req.count`. -/
structure ConfigureEnv where
  sfmt : Option Nat
  gfmt : Option Nat
  sparm_ok : Bool
  reqbufs : Option Nat
  querybuf : Nat → Option QueryBufReply
  mmap_addr : Nat → Option Int
  qbuf_ok : Nat → Bool

/-- The query/map loop of `configure` (lines 225-245): for each index `i`
in `[first, first + n)` issue `VIDIOC_QUERYBUF`, `mmap` the reported
length, and store address and length into `buffers_[i]`; the first failure
throws, keeping the entries already written. -/
def mapBuffersLoop (env : ConfigureEnv) :
    Nat → Nat → V4L2Camera → V4L2Camera × Except String Unit × List HwOp
  | 0, _, cam => (cam, .ok (), [])
  | n + 1, i, cam =>
    match env.querybuf i with
    | none => (cam, .error "VIDIOC_QUERYBUF failed", [HwOp.querybuf i])
    | some qb =>
      match env.mmap_addr i with
      | none =>
        (cam, .error "mmap failed", [HwOp.querybuf i, HwOp.mmap_call i])
      | some addr =>
        let cam' := { cam with
          buffers := cam.buffers.set i { data := addr, size := qb.length } }
        let rest := mapBuffersLoop env n (i + 1) cam'
        (rest.1, rest.2.1, HwOp.querybuf i :: HwOp.mmap_call i :: rest.2.2)

/-- The enqueue loop of `configure` (lines 248-259): `VIDIOC_QBUF` each
index in `[first, first + n)`; the first failure throws. -/
def enqueueBuffersLoop (env : ConfigureEnv) :
    Nat → Nat → Except String Unit × List HwOp
  | 0, _ => (.ok (), [])
  | n + 1, i =>
    if env.qbuf_ok i then
      let rest := enqueueBuffersLoop env n (i + 1)
      (rest.1, HwOp.qbuf i :: rest.2)
    else
      (.error "VIDIOC_QBUF failed during enqueue", [HwOp.qbuf i])

/-- The tail of `configure` after format verification (lines 202-262):
`S_PARM`, `REQBUFS` (note: the granted count in the kernel's reply is
discarded — every later loop runs over `config_.buffer_count_`), the
query/map loop, the enqueue loop, and finally `configured_ = true`. -/
def configure_after_format (cam : V4L2Camera) (env : ConfigureEnv) :
    V4L2Camera × Except String Unit × List HwOp :=
  if ¬ env.sparm_ok then
    (cam, .error "VIDIOC_S_PARM failed", [HwOp.sfmt, HwOp.gfmt, HwOp.sparm])
  else
    match env.reqbufs with
    | none =>
      (cam, .error "VIDIOC_REQBUFS failed",
       [HwOp.sfmt, HwOp.gfmt, HwOp.sparm, HwOp.reqbufs cam.config.buffer_count])
    | some _granted =>
      let head := [HwOp.sfmt, HwOp.gfmt, HwOp.sparm,
                   HwOp.reqbufs cam.config.buffer_count]
      let mapres := mapBuffersLoop env cam.config.buffer_count 0 cam
      match mapres.2.1 with
      | .error e => (mapres.1, .error e, head ++ mapres.2.2)
      | .ok _ =>
        let enq := enqueueBuffersLoop env mapres.1.config.buffer_count 0
        match enq.1 with
        | .error e => (mapres.1, .error e, head ++ mapres.2.2 ++ enq.2)
        | .ok _ =>
          ({ mapres.1 with configured := true }, .ok (),
           head ++ mapres.2.2 ++ enq.2)

/-- `V4L2Camera::configure` (lines 138-262).  Returns immediately when the
device was never opened (`fd_ < 0`) or the engine is already configured.
Otherwise: validate the requested fourcc against {MJPEG, YUYV}; `S_FMT`
and fail if the driver's returned format differs from the request; adopt
the confirmed format into `config_`; `G_FMT` and fail on mismatch; then
`configure_after_format`. -/
def V4L2Camera.configure (cam : V4L2Camera) (env : ConfigureEnv) :
    V4L2Camera × Except String Unit × List HwOp :=
  if cam.fd < 0 ∨ cam.configured then (cam, .ok (), [])
  else
    let requested_fourcc := cam.config.format
    if requested_fourcc ≠ V4L2_PIX_FMT_MJPEG ∧
        requested_fourcc ≠ V4L2_PIX_FMT_YUYV then
      (cam, .error "Unsupported pixel format", [])
    else
      match env.sfmt with
      | none => (cam, .error "VIDIOC_S_FMT failed", [HwOp.sfmt])
      | some returned_fourcc =>
        if returned_fourcc ≠ requested_fourcc then
          (cam, .error "driver rejected pixel format", [HwOp.sfmt])
        else
          let cam' := { cam with
            config := { cam.config with format := returned_fourcc } }
          match env.gfmt with
          | none =>
            (cam', .error "VIDIOC_G_FMT failed after format negotiation",
             [HwOp.sfmt, HwOp.gfmt])
          | some checked_fourcc =>
            if checked_fourcc ≠ cam'.config.format then
              (cam', .error "driver format mismatch",
               [HwOp.sfmt, HwOp.gfmt])
            else configure_after_format cam' env

/-! ## Concrete states and environments used by the witnesses -/

/-- A configured camera owning a single 1000-byte mapping at address
4096, with no outstanding buffer. -/
def camPool1 : V4L2Camera :=
  { config := {}, fd := 3, configured := true, last_buf_index := none,
    buffers := [{ data := 4096, size := 1000 }], caps := {} }

/-- `camPool1` with buffer 0 outstanding. -/
def camPool1Out : V4L2Camera :=
  { camPool1 with last_buf_index := some 0 }

/-- A configured camera owning two 1000-byte mappings, with buffer 0
outstanding. -/
def camPool2Out : V4L2Camera :=
  { config := {}, fd := 3, configured := true, last_buf_index := some 0,
    buffers := [{ data := 4096, size := 1000 }, { data := 8192, size := 1000 }],
    caps := {} }

/-- An opened but not yet configured camera requesting MJPEG with the
default buffer count 4. -/
def camOpened4 : V4L2Camera :=
  { V4L2Camera.mk_from_config {} with fd := 3 }

/-- An environment in which every hardware call fails. -/
def envAllFail : ConfigureEnv :=
  { sfmt := none, gfmt := none, sparm_ok := false, reqbufs := none,
    querybuf := fun _ => none, mmap_addr := fun _ => none,
    qbuf_ok := fun _ => false }

/-- A driver that silently substitutes YUYV in the `S_FMT` reply. -/
def envSubstYUYV : ConfigureEnv :=
  { envAllFail with sfmt := some V4L2_PIX_FMT_YUYV }

/-- A driver that echoes MJPEG in `S_FMT` but reports YUYV when the live
format is re-queried with `G_FMT`. -/
def envGfmtYUYV : ConfigureEnv :=
  { envAllFail with
    sfmt := some V4L2_PIX_FMT_MJPEG, gfmt := some V4L2_PIX_FMT_YUYV }

/-- A kernel that accepts the MJPEG negotiation but grants only 2 buffers:
`REQBUFS` replies with count 2, and `QUERYBUF` fails (as with `EINVAL`)
for every index at or beyond 2. -/
def envGrant2 : ConfigureEnv :=
  { sfmt := some V4L2_PIX_FMT_MJPEG, gfmt := some V4L2_PIX_FMT_MJPEG,
    sparm_ok := true, reqbufs := some 2,
    querybuf := fun i => if i < 2 then some { length := 1000, offset := 1000 * i } else none,
    mmap_addr := fun i => some (4096 + 4096 * (Int.ofNat i)),
    qbuf_ok := fun _ => true }

/-! ## Theorems -/

/-- C7: for every enumerated pixel dimension (HD, FHD, 2K, 4K), packing
the width/height pair with `dimensions_compress` and then unpacking with
`dimensions_decompress` yields exactly the original width/height pair. -/
theorem C7_pack_unpack_roundtrip (d : PixelDimension) :
    dimensions_decompress (dimensions_compress d.width d.height) =
      (d.width, d.height) ∧
    dimensions_decompress d.val = (d.width, d.height) := by
  cases d <;> exact ⟨rfl, rfl⟩

/-- C5: `release_frame` with no outstanding buffer (`last_buf_index_`
absent) is a reported no-op: it does not raise, issues no hardware
requeue of any index, and leaves the engine state unchanged. -/
theorem C5_release_without_outstanding_is_noop (cam : V4L2Camera)
    (qbufOk : Bool) (h : cam.last_buf_index = none) :
    cam.release_frame qbufOk = (cam, .ok (), []) := by
  simp [V4L2Camera.release_frame, h]

/-- C5 witness: a freshly constructed camera has no outstanding buffer and
`release_frame` on it returns unchanged state, success, and no hardware
operations. -/
theorem C5_release_without_outstanding_is_noop_witness :
    (V4L2Camera.mk_from_config {}).last_buf_index = none ∧
    (V4L2Camera.mk_from_config {}).release_frame true =
      (V4L2Camera.mk_from_config {}, .ok (), []) :=
  ⟨rfl, C5_release_without_outstanding_is_noop _ true rfl⟩

/-- C6: the `has_valid_frame` predicate tracks the capture/release cycle:
after a successful `capture_frame` it is true; after the matching
successful `release_frame` it is false; and a second `release_frame`
without an intervening capture performs no hardware operation and leaves
the state unchanged. -/
theorem C6_marker_tracks_capture_release (cam : V4L2Camera)
    (r : DqbufReply) (now : Nat) (hidx : r.index < cam.buffers.length) :
    ((cam.capture_frame (some r) now).1.has_valid_frame = true) ∧
    ((((cam.capture_frame (some r) now).1.release_frame true).1).has_valid_frame
       = false) ∧
    (((((cam.capture_frame (some r) now).1.release_frame true).1).release_frame
        true).2.2 = []) ∧
    (((((cam.capture_frame (some r) now).1.release_frame true).1).release_frame
        true).1 =
      ((cam.capture_frame (some r) now).1.release_frame true).1) := by
  have hnot : ¬ r.index ≥ cam.buffers.length := Nat.not_le.mpr hidx
  simp [V4L2Camera.capture_frame, V4L2Camera.release_frame,
        V4L2Camera.has_valid_frame, hnot]

/-- C6 witness: on a camera with one mapped buffer, capture at index 0
then release then a second release exhibit the marker cycle. -/
theorem C6_marker_tracks_capture_release_witness :
    (0 < camPool1.buffers.length) ∧
    ((camPool1.capture_frame (some ⟨0, 50, 0, 0⟩) 7).1.has_valid_frame = true) ∧
    ((((camPool1.capture_frame (some ⟨0, 50, 0, 0⟩) 7).1.release_frame
        true).1).has_valid_frame = false) :=
  ⟨by decide,
   (C6_marker_tracks_capture_release camPool1 ⟨0, 50, 0, 0⟩ 7 (by decide)).1,
   (C6_marker_tracks_capture_release camPool1 ⟨0, 50, 0, 0⟩ 7 (by decide)).2.1⟩

/-- C8: `configure` is a no-op returning success, with no hardware
interaction and no state change, when the device was never opened
(`fd_ < 0`) or the engine is already configured. -/
theorem C8_configure_noop_unopened_or_configured (cam : V4L2Camera)
    (env : ConfigureEnv) (h : cam.fd < 0 ∨ cam.configured = true) :
    cam.configure env = (cam, .ok (), []) := by
  unfold V4L2Camera.configure
  rw [if_pos h]

/-- C8 witness: a freshly constructed (never opened) camera has `fd_ = -1`
and `configure` on it is a no-op. -/
theorem C8_configure_noop_witness :
    ((V4L2Camera.mk_from_config {}).fd < 0) ∧
    (V4L2Camera.mk_from_config {}).configure
        { sfmt := none, gfmt := none, sparm_ok := false, reqbufs := none,
          querybuf := fun _ => none, mmap_addr := fun _ => none,
          qbuf_ok := fun _ => false } =
      (V4L2Camera.mk_from_config {}, .ok (), []) :=
  ⟨by decide,
   C8_configure_noop_unopened_or_configured _ _ (Or.inl (by decide))⟩

/-- C9: when the hardware requeue inside `release_frame` fails, the call
raises and the whole state — in particular the outstanding-buffer marker —
is unchanged, so a later `release_frame` retries the very same index. -/
theorem C9_release_failure_leaves_marker (cam : V4L2Camera) (idx : Nat)
    (h : cam.last_buf_index = some idx) :
    cam.release_frame false =
      (cam, .error "VIDIOC_QBUF failed", [HwOp.qbuf idx]) ∧
    ((cam.release_frame false).1.release_frame true).2.2 = [HwOp.qbuf idx] := by
  simp [V4L2Camera.release_frame, h]

/-- C9 witness: with buffer 0 outstanding and a failing requeue,
`release_frame` errors, keeps the state, and the retry requeues index 0. -/
theorem C9_release_failure_leaves_marker_witness :
    (camPool1Out.last_buf_index = some 0) ∧
    camPool1Out.release_frame false =
      (camPool1Out, .error "VIDIOC_QBUF failed", [HwOp.qbuf 0]) :=
  ⟨rfl, (C9_release_failure_leaves_marker camPool1Out 0 rfl).1⟩

/-- C10: `capture_frame` does not check the no-outstanding precondition;
called while index `j` is still outstanding, a successful dequeue simply
overwrites the marker with the new index, and the subsequent
`release_frame` requeues only the new index (never `j`), after which
nothing is outstanding — so the previously outstanding buffer can no
longer be released through `release_frame`. -/
theorem C10_capture_overwrites_marker (cam : V4L2Camera) (j : Nat)
    (r : DqbufReply) (now : Nat) (_hout : cam.last_buf_index = some j)
    (hidx : r.index < cam.buffers.length) :
    ((cam.capture_frame (some r) now).1.last_buf_index = some r.index) ∧
    (((cam.capture_frame (some r) now).1.release_frame true).2.2 =
       [HwOp.qbuf r.index]) ∧
    ((((cam.capture_frame (some r) now).1.release_frame true).1).last_buf_index
       = none) := by
  have hnot : ¬ r.index ≥ cam.buffers.length := Nat.not_le.mpr hidx
  simp [V4L2Camera.capture_frame, V4L2Camera.release_frame, hnot]

/-- C10 witness: with buffer 0 outstanding, capturing again at index 1
overwrites the marker to 1 and the next release requeues only index 1. -/
theorem C10_capture_overwrites_marker_witness :
    (camPool2Out.last_buf_index = some 0) ∧
    (1 < camPool2Out.buffers.length) ∧
    ((camPool2Out.capture_frame (some ⟨1, 50, 0, 0⟩) 7).1.last_buf_index =
       some 1) ∧
    (((camPool2Out.capture_frame (some ⟨1, 50, 0, 0⟩) 7).1.release_frame
        true).2.2 = [HwOp.qbuf 1]) :=
  ⟨rfl, by decide,
   (C10_capture_overwrites_marker camPool2Out 0 ⟨1, 50, 0, 0⟩ 7 rfl
     (by decide)).1,
   (C10_capture_overwrites_marker camPool2Out 0 ⟨1, 50, 0, 0⟩ 7 rfl
     (by decide)).2.1⟩

/-- C2: `capture_frame` never returns a view when the kernel-reported
dequeued index is outside the mapped pool's bounds (it fails instead);
and on a successful call the returned view points into the mapped entry
at the dequeued index with length `bytesused`, so as long as the kernel
honours its contract that `bytesused` never exceeds that buffer's length
(which `configure` recorded as the entry's `size`), the view's byte-span
length does not exceed the total mapped length of that buffer. -/
theorem C2_capture_view_within_mapped_bounds (cam : V4L2Camera)
    (r : DqbufReply) (now : Nat) :
    (r.index ≥ cam.buffers.length →
       cam.capture_frame (some r) now =
         (cam, .error "DQBUF returned invalid buffer index", [HwOp.dqbuf])) ∧
    (r.index < cam.buffers.length →
       r.bytesused ≤ (cam.buffers.getD r.index {}).size →
       ∃ fv, (cam.capture_frame (some r) now).2.1 = .ok fv ∧
         fv.image_data = (cam.buffers.getD r.index {}).data ∧
         fv.image_len = r.bytesused ∧
         fv.image_len ≤ (cam.buffers.getD r.index {}).size) := by
  constructor
  · intro hge
    simp [V4L2Camera.capture_frame, hge]
  · intro hlt hused
    have hnot : ¬ r.index ≥ cam.buffers.length := Nat.not_le.mpr hlt
    refine ⟨{ timestamp_monotonic_us := now
              v4l2_timestamp_us := r.tv_sec * 1000000 + r.tv_usec
              image_data := (cam.buffers.getD r.index {}).data
              image_len := r.bytesused
              width := (dimensions_decompress cam.config.dimension).1
              height := (dimensions_decompress cam.config.dimension).2
              format := cam.config.format }, ?_, rfl, rfl, hused⟩
    simp [V4L2Camera.capture_frame, hnot]

/-- C2 witness: on a pool of one 1000-byte mapping, a dequeue at the
out-of-range index 5 fails, and a dequeue at index 0 with 50 bytes used
yields a view into that mapping of length 50 ≤ 1000. -/
theorem C2_capture_view_within_mapped_bounds_witness :
    ((5 : Nat) ≥ camPool1.buffers.length) ∧
    (camPool1.capture_frame (some ⟨5, 50, 0, 0⟩) 7 =
      (camPool1, .error "DQBUF returned invalid buffer index", [HwOp.dqbuf])) ∧
    ((0 : Nat) < camPool1.buffers.length) ∧
    ((50 : Nat) ≤ (camPool1.buffers.getD 0 {}).size) ∧
    (∃ fv, (camPool1.capture_frame (some ⟨0, 50, 0, 0⟩) 7).2.1 = .ok fv ∧
       fv.image_data = (camPool1.buffers.getD 0 {}).data ∧
       fv.image_len = 50 ∧
       fv.image_len ≤ (camPool1.buffers.getD 0 {}).size) :=
  ⟨by decide,
   (C2_capture_view_within_mapped_bounds camPool1 ⟨5, 50, 0, 0⟩ 7).1 (by decide),
   by decide, by decide,
   (C2_capture_view_within_mapped_bounds camPool1 ⟨0, 50, 0, 0⟩ 7).2
     (by decide) (by decide)⟩

/-- Helper: the query/map loop never modifies the stored configuration. -/
theorem mapBuffersLoop_preserves_config (env : ConfigureEnv) :
    ∀ (n i : Nat) (cam : V4L2Camera),
      (mapBuffersLoop env n i cam).1.config = cam.config := by
  intro n
  induction n with
  | zero => intro i cam; rfl
  | succ n ih =>
    intro i cam
    unfold mapBuffersLoop
    cases hq : env.querybuf i with
    | none => rfl
    | some qb =>
      cases hm : env.mmap_addr i with
      | none => rfl
      | some addr => exact ih (i + 1) _

/-- Helper: the tail of `configure` after format verification never
modifies the stored configuration. -/
theorem configure_after_format_preserves_config (cam : V4L2Camera)
    (env : ConfigureEnv) :
    (configure_after_format cam env).1.config = cam.config := by
  unfold configure_after_format
  split
  · rfl
  · cases hr : env.reqbufs with
    | none => rfl
    | some g =>
      simp only []
      split
      · exact mapBuffersLoop_preserves_config env _ _ _
      · split
        · exact mapBuffersLoop_preserves_config env _ _ _
        · exact mapBuffersLoop_preserves_config env _ _ _

/-- C4: under an opened, not-yet-configured engine with a supported
requested encoding, if the driver's `S_FMT` reply carries a different
encoding, `configure` fails with no state change; if it carries the same
encoding, the held configuration's encoding ends up equal to that
confirmed value in every outcome, and the `G_FMT` re-query must succeed
and still report that value or `configure` fails. -/
theorem C4_format_substitution_is_fatal (cam : V4L2Camera)
    (env : ConfigureEnv) (hfd : ¬ cam.fd < 0)
    (hconf : ¬ cam.configured = true)
    (hvalid : cam.config.format = V4L2_PIX_FMT_MJPEG ∨
              cam.config.format = V4L2_PIX_FMT_YUYV) :
    (∀ ret, env.sfmt = some ret → ret ≠ cam.config.format →
       cam.configure env =
         (cam, .error "driver rejected pixel format", [HwOp.sfmt])) ∧
    (∀ ret, env.sfmt = some ret → ret = cam.config.format →
       ((cam.configure env).1.config.format = ret ∧
        (env.gfmt = none →
           (cam.configure env).2.1 =
             .error "VIDIOC_G_FMT failed after format negotiation") ∧
        (∀ chk, env.gfmt = some chk → chk ≠ ret →
           (cam.configure env).2.1 = .error "driver format mismatch"))) := by
  have hguard : ¬ (cam.fd < 0 ∨ cam.configured = true) := by
    intro h; rcases h with h | h
    · exact hfd h
    · exact hconf h
  have hval : ¬ (cam.config.format ≠ V4L2_PIX_FMT_MJPEG ∧
                 cam.config.format ≠ V4L2_PIX_FMT_YUYV) := by
    rcases hvalid with h | h <;> simp [h]
  constructor
  · intro ret hs hne
    unfold V4L2Camera.configure
    simp [if_neg hguard, if_neg hval, hs, hne]
  · intro ret hs heq
    subst heq
    refine ⟨?_, ?_, ?_⟩
    · cases hg : env.gfmt with
      | none =>
        unfold V4L2Camera.configure
        simp [if_neg hguard, if_neg hval, hs, hg]
      | some chk =>
        unfold V4L2Camera.configure
        simp only [if_neg hguard, if_neg hval, hs, hg, ne_eq,
                   not_true_eq_false, ite_false, if_false]
        split
        · rfl
        · rw [configure_after_format_preserves_config]
    · intro hg
      unfold V4L2Camera.configure
      simp [if_neg hguard, if_neg hval, hs, hg]
    · intro chk hg hne2
      unfold V4L2Camera.configure
      simp [if_neg hguard, if_neg hval, hs, hg, hne2]

/-- C4 witness: an opened MJPEG-requesting camera; a driver substituting
YUYV in the `S_FMT` reply makes `configure` fail with no state change,
and a driver echoing MJPEG in `S_FMT` but reporting YUYV in the `G_FMT`
re-query also makes `configure` fail. -/
theorem C4_format_substitution_is_fatal_witness :
    (¬ camOpened4.fd < 0) ∧ (¬ camOpened4.configured = true) ∧
    (camOpened4.config.format = V4L2_PIX_FMT_MJPEG) ∧
    (camOpened4.configure envSubstYUYV =
      (camOpened4, .error "driver rejected pixel format", [HwOp.sfmt])) ∧
    ((camOpened4.configure envGfmtYUYV).2.1 =
      .error "driver format mismatch") :=
  ⟨by decide, by decide, rfl,
   (C4_format_substitution_is_fatal camOpened4 envSubstYUYV (by decide)
       (by decide) (Or.inl rfl)).1 V4L2_PIX_FMT_YUYV rfl (by decide),
   (((C4_format_substitution_is_fatal camOpened4 envGfmtYUYV (by decide)
       (by decide) (Or.inl rfl)).2 V4L2_PIX_FMT_MJPEG (by decide) rfl).2.2)
     V4L2_PIX_FMT_YUYV (by decide) (by decide)⟩

/-- C1: the claim says a configure call on a device granting fewer
buffers than requested must use the granted count for all per-buffer work
and never touch an index at or beyond it.  The code instead discards the
count the kernel writes back into `req.count` and loops over
`config_.buffer_count_`.  Evaluated at the claim's own scenario — buffer
count 4, kernel granting 2 — the engine issues `VIDIOC_QUERYBUF` for
index 2 (at the granted bound) and `configure` fails there, instead of
proceeding with the granted 2 buffers. -/
theorem C1_granted_count_is_ignored :
    (camOpened4.config.buffer_count = 4) ∧
    (envGrant2.reqbufs = some 2) ∧
    (envGrant2.querybuf 2 = none) ∧
    ((camOpened4.configure envGrant2).2.1 = .error "VIDIOC_QUERYBUF failed") ∧
    ((camOpened4.configure envGrant2).2.2 =
      [HwOp.sfmt, HwOp.gfmt, HwOp.sparm, HwOp.reqbufs 4,
       HwOp.querybuf 0, HwOp.mmap_call 0, HwOp.querybuf 1, HwOp.mmap_call 1,
       HwOp.querybuf 2]) :=
  ⟨rfl, rfl, rfl, rfl, rfl⟩

/-- C3: the claim says a moved-from engine is left equivalent to `Closed`
with no resources, so destroying it releases nothing owned by the new
owner.  The move operations only execute `other.fd_ = -1`: evaluated on a
source owning one valid 1000-byte mapping at address 4096 with buffer 0
outstanding, the moved-from source still holds that mapping (and the
outstanding marker), and its destructor's cleanup issues `munmap` of the
very region transferred to the destination. -/
theorem C3_moved_from_source_retains_mappings :
    ((camPool1Out.buffers.getD 0 {}).is_valid = true) ∧
    (camPool1Out.move_source_after.fd = -1) ∧
    (camPool1Out.move_source_after.buffers = camPool1Out.buffers) ∧
    (camPool1Out.move_source_after.last_buf_index = some 0) ∧
    ((camPool1Out.move_source_after.cleanup).2 =
      [HwOp.munmap_call 4096 1000]) := by
  decide

end V4l2
